import Mathlib

/-!
Shallow embedding of the FreeSWITCH call-automation scripts
(`outboundim/` and `inboundim/`): the event-wait loops of
`call_management.py`, the conversation loops of `conversation.py`, the
message assembly of `ai_processor.py`, and the post-answer command
sequence of `main.py`.

Event polling (`conn.recvEventTimed`) is modelled as a finite list of
poll results, each `none` (empty poll) or `some` event name; exhausting
the list models the wall-clock deadline of the surrounding `while` loop
expiring.  The filesystem is modelled by explicit `fileExists`/`fileSize`
parameters giving the state of the recording artifact at the moment the
code inspects it.
-/

namespace FreeswitchSetup

/-- Event names consumed by the scripts (`Event-Name` header values);
`OTHER` stands for any event name the loops do not test for. -/
inductive EventName where
  | CHANNEL_ANSWER
  | CHANNEL_HANGUP
  | RECORD_START
  | RECORD_STOP
  | PLAYBACK_STOP
  | OTHER
deriving DecidableEq, Repr

/-- One poll result of `conn.recvEventTimed`: `none` when the poll
returned no event, `some e` when an event named `e` arrived. -/
abbrev Poll := Option EventName

/-!  ## Recording: `record_user_response`  (both variants)  -/

/-- Outcome of the event-monitoring `while` loop inside
`record_user_response`. -/
inductive RecordLoopOutcome where
  | stopped   -- `RECORD_STOP` seen after `RECORD_START`: early return of the path
  | hungUp    -- `CHANNEL_HANGUP` seen (outbound variant only): early return None
  | timedOut  -- loop deadline expired with no early return
deriving DecidableEq, Repr

/-- The event-monitoring loop of the outbound
`record_user_response` (`outboundim/call_management.py` lines 211-227):
tracks `record_started`, returns the path on `RECORD_STOP` after a
`RECORD_START`, aborts on `CHANNEL_HANGUP`, otherwise polls until the
deadline. -/
def outbound_record_loop : Bool → List Poll → RecordLoopOutcome
  | _, [] => .timedOut
  | started, none :: rest => outbound_record_loop started rest
  | started, some e :: rest =>
    match e with
    | .RECORD_START => outbound_record_loop true rest
    | .RECORD_STOP =>
        if started then .stopped else outbound_record_loop started rest
    | .CHANNEL_HANGUP => .hungUp
    | _ => outbound_record_loop started rest

/-- The event-monitoring loop of the inbound
`record_user_response` (`inboundim/call_management.py` lines 81-93): the
same loop but with no `CHANNEL_HANGUP` branch, so hangup events fall
through and the loop keeps polling. -/
def inbound_record_loop : Bool → List Poll → RecordLoopOutcome
  | _, [] => .timedOut
  | started, none :: rest => inbound_record_loop started rest
  | started, some e :: rest =>
    match e with
    | .RECORD_START => inbound_record_loop true rest
    | .RECORD_STOP =>
        if started then .stopped else inbound_record_loop started rest
    | _ => inbound_record_loop started rest

/-- Per-turn caller recording path of the outbound variant:
`RECORDINGS_DIR / f"client_response_{call_uuid}.wav"` with
`RECORDINGS_DIR = /tmp/freeswitch_recordings`.  A function of the call
UUID only — no turn index appears in the name. -/
def outbound_record_path (call_uuid : String) : String :=
  "/tmp/freeswitch_recordings/client_response_" ++ call_uuid ++ ".wav"

/-- Per-turn caller recording path of the inbound variant:
`RECORDINGS_DIR / f"client_response_{call_uuid}.wav"` with
`RECORDINGS_DIR = /tmp/freeswitch/recordings`. -/
def inbound_record_path (call_uuid : String) : String :=
  "/tmp/freeswitch/recordings/client_response_" ++ call_uuid ++ ".wav"

/-- Outbound `record_user_response`
(`outboundim/call_management.py` lines 175-248).  `polls` are the events
delivered during the monitoring loop; `fileExists`/`fileSize` describe
the artifact file when the manual-stop path inspects it.  On the
silence-stop path the path is returned with no validation at all; only
the manual-stop (deadline) path checks existence and the 1000-byte
floor. -/
def outbound_record_user_response (call_uuid : String) (polls : List Poll)
    (fileExists : Bool) (fileSize : Nat) : Option String :=
  match outbound_record_loop false polls with
  | .stopped => some (outbound_record_path call_uuid)
  | .hungUp => none
  | .timedOut =>
    if fileExists then
      if fileSize > 1000 then some (outbound_record_path call_uuid)
      else none
    else none

/-- Inbound `record_user_response`
(`inboundim/call_management.py` lines 55-112): identical post-loop
validation, but driven by `inbound_record_loop`, which never aborts on
hangup. -/
def inbound_record_user_response (call_uuid : String) (polls : List Poll)
    (fileExists : Bool) (fileSize : Nat) : Option String :=
  match inbound_record_loop false polls with
  | .stopped => some (inbound_record_path call_uuid)
  | .hungUp => none
  | .timedOut =>
    if fileExists then
      if fileSize > 1000 then some (inbound_record_path call_uuid)
      else none
    else none

/-- Max-duration argument (ms) of the outbound start-recording command:
`uuid_record ... start ... 20000 50 3000`. -/
def outbound_record_start_max_ms : Nat := 20000

/-- Overall wait budget (s) of the outbound recording event loop:
`max_wait = 7`. -/
def outbound_record_max_wait_s : Nat := 7

/-- Max-duration argument (ms) of the inbound start-recording command:
`uuid_record ... start ... 15000 30 3000`. -/
def inbound_record_start_max_ms : Nat := 15000

/-- Overall wait budget (s) of the inbound recording event loop:
`max_wait = 15`. -/
def inbound_record_max_wait_s : Nat := 15

/-!  ## Playback: `wait_for_playback_completion` / `play_audio_file`  -/

/-- Outbound `wait_for_playback_completion`
(`outboundim/call_management.py` lines 124-154): poll until
`PLAYBACK_STOP` (true) or `CHANNEL_HANGUP` (false); deadline expiry
yields false. -/
def wait_for_playback_completion : List Poll → Bool
  | [] => false
  | none :: rest => wait_for_playback_completion rest
  | some e :: rest =>
    match e with
    | .PLAYBACK_STOP => true
    | .CHANNEL_HANGUP => false
    | _ => wait_for_playback_completion rest

/-- Inbound `play_audio_file` (`inboundim/call_management.py`
lines 15-41), as a function of the two conditions it branches on: the
liveness check and the (post-conversion) file-existence check.  Each
early-exit `return False` is `some false`; the successful playback path
executes `playback`, sleeps for the audio duration, and falls off the
end of the function — in Python that returns `None`, modelled as
`none`. -/
def inbound_play_audio_file (callActive : Bool) (fileExists : Bool) :
    Option Bool :=
  if !callActive then some false
  else if !fileExists then some false
  else none

/-!  ## Conversation loop: `conversation_loop`  (both variants)

Each pass of the `while iteration < max_iterations` loop consults the
transport and the three external services; their outcomes for iteration
`n` are supplied by an environment `envs n`.  The loop body itself is a
straight-line function of that environment and the running
`conversation_history`. -/

/-- A message appended to `conversation_history` / sent to the reply
service: `{"role": ..., "content": ...}`. -/
structure Msg where
  role : String
  content : String
deriving DecidableEq, Repr

/-- `process_call_context` message assembly (`ai_processor.py`, both
variants): `messages = conversation_history + [{"role": "user",
"content": call_context}]`; this list is what is sent to the model. -/
def process_call_context_messages (call_context : String)
    (conversation_history : List Msg) : List Msg :=
  conversation_history ++ [Msg.mk "user" call_context]

/-- Outcomes of one iteration's external interactions, as observed by
the loop body: the two `check_call_active` results, the
`record_user_response` result, the transcription, and the reply/TTS
results (`none` models the service raising an exception).  The inbound
body does not consult `ttsResult`: its synthesis outcome is fixed by
`inbound_convert_text_to_audio`, which always raises. -/
structure TurnEnv where
  activePre : Bool
  recordResult : Option String
  activePost : Bool
  transcription : String
  aiResult : Option String
  ttsResult : Option String
deriving DecidableEq, Repr

/-- What a turn played back to the caller. -/
inductive PlayKind where
  | reply        -- the synthesized AI reply
  | retryPrompt  -- inbound "couldn't hear you" prompt (empty transcript)
  | errorPrompt  -- inbound "having trouble understanding" prompt (reply failure)
deriving DecidableEq, Repr

/-- Whether the loop body falls to the next iteration or breaks out. -/
inductive TurnStep where
  | halt   -- `break` out of the while loop
  | next   -- fall through to the next iteration
  | crash  -- an uncaught exception escapes `conversation_loop` entirely
deriving DecidableEq, Repr

/-- Observable result of one loop-body pass: control flow, updated
history, playbacks issued, message lists sent to the reply service, and
whether `record_user_response` was invoked. -/
structure TurnOutput where
  step : TurnStep
  history : List Msg
  played : List PlayKind
  sent : List (List Msg)
  recorded : Bool
deriving DecidableEq, Repr

/-- One body pass of the outbound `conversation_loop`
(`outboundim/conversation.py` lines 36-90): pre-active check (`break`),
record (`break` on falsy), post-active check (`break`), transcribe (no
empty-transcript branch), append the user message, call
`process_call_context` (exception ⇒ `continue`), append the assistant
message, synthesize (exception ⇒ `continue`), play (result ignored). -/
def outbound_turn_body (env : TurnEnv) (history : List Msg) : TurnOutput :=
  if !env.activePre then ⟨.halt, history, [], [], false⟩
  else
    match env.recordResult with
    | none => ⟨.halt, history, [], [], true⟩
    | some _ =>
      if !env.activePost then ⟨.halt, history, [], [], true⟩
      else
        let t := env.transcription
        let history1 := history ++ [Msg.mk "user" t]
        let sentMsgs := process_call_context_messages t history1
        match env.aiResult with
        | none => ⟨.next, history1, [], [sentMsgs], true⟩
        | some ai =>
          let history2 := history1 ++ [Msg.mk "assistant" ai]
          match env.ttsResult with
          | none => ⟨.next, history2, [], [sentMsgs], true⟩
          | some _ => ⟨.next, history2, [.reply], [sentMsgs], true⟩

/-- Result of any call to the inbound `convert_text_to_audio`
(`inboundim/ai_processor.py` lines 105-129): line 122 computes
`output_path = {RECORDINGS_DIR}/f"recording_{call_uuid}.wav"`, dividing
a one-element set literal by a string — an unconditional `TypeError` on
every call, so the function never returns a path.  `none` models the
raised exception. -/
def inbound_convert_text_to_audio : Option String := none

/-- One body pass of the inbound `conversation_loop`
(`inboundim/conversation.py` lines 36-108): same prefix as the outbound
body, then: an empty transcript calls `convert_text_to_audio` for a
retry prompt outside any `try` (lines 62-66) — the call raises, so the
loop crashes with the exception; a reply-service exception calls
`convert_text_to_audio` for an error prompt inside the `except` handler
(lines 80-84) — again unprotected, so the loop crashes; on a successful
reply the synthesis call sits inside a `try` (lines 94-100), its
unconditional `TypeError` is caught, and the body continues with no
playback, leaving the reply-playback step unreachable. -/
def inbound_turn_body (env : TurnEnv) (history : List Msg) : TurnOutput :=
  if !env.activePre then ⟨.halt, history, [], [], false⟩
  else
    match env.recordResult with
    | none => ⟨.halt, history, [], [], true⟩
    | some _ =>
      if !env.activePost then ⟨.halt, history, [], [], true⟩
      else
        let t := env.transcription
        if t = "" then
          match inbound_convert_text_to_audio with
          | none => ⟨.crash, history, [], [], true⟩
          | some _ => ⟨.next, history, [.retryPrompt], [], true⟩
        else
          let history1 := history ++ [Msg.mk "user" t]
          let sentMsgs := process_call_context_messages t history1
          match env.aiResult with
          | none =>
            match inbound_convert_text_to_audio with
            | none => ⟨.crash, history1, [], [sentMsgs], true⟩
            | some _ => ⟨.next, history1, [.errorPrompt], [sentMsgs], true⟩
          | some ai =>
            let history2 := history1 ++ [Msg.mk "assistant" ai]
            match inbound_convert_text_to_audio with
            | none => ⟨.next, history2, [], [sentMsgs], true⟩
            | some _ => ⟨.next, history2, [.reply], [sentMsgs], true⟩

/-- Accumulated observation of a whole `conversation_loop` run:
the final value of `iteration`, the final `conversation_history`, the
indices of iterations whose body was entered, the playbacks and
reply-service calls tagged by iteration, the per-turn recording
paths used, and whether the run ended with an uncaught exception
escaping `conversation_loop`. -/
structure LoopResult where
  finalIteration : Nat
  history : List Msg
  entered : List Nat
  played : List (Nat × PlayKind)
  sent : List (List Msg)
  recPaths : List (Nat × String)
  crashed : Bool
deriving DecidableEq, Repr

/-- The `while iteration < max_iterations` loop shared by both
variants' `conversation_loop`: `iteration` starts at 0 and is
incremented at the top of each body pass; a `halt` body breaks, a
`next` body falls through to the next pass; a `crash` body ends the
run like a break but marks the result crashed — in the source the
exception propagates out of `conversation_loop`, skipping its
epilogue.  `fuel` bounds the recursion and is instantiated with
`max_iterations`, which always dominates the guard. `recPath` is the (uuid-derived) path
`record_user_response` writes each time the body reaches the record
step. -/
def loop_go (body : TurnEnv → List Msg → TurnOutput) (envs : Nat → TurnEnv)
    (recPath : String) (max_iterations : Nat) :
    Nat → Nat → List Msg → LoopResult
  | 0, iteration, history => ⟨iteration, history, [], [], [], [], false⟩
  | fuel + 1, iteration, history =>
    if iteration < max_iterations then
      let n := iteration + 1
      let out := body (envs n) history
      let recs : List (Nat × String) := if out.recorded then [(n, recPath)] else []
      match out.step with
      | .halt =>
          ⟨n, out.history, [n], out.played.map (fun k => (n, k)), out.sent, recs,
           false⟩
      | .next =>
          let r := loop_go body envs recPath max_iterations fuel n out.history
          ⟨r.finalIteration, r.history, n :: r.entered,
           out.played.map (fun k => (n, k)) ++ r.played,
           out.sent ++ r.sent, recs ++ r.recPaths, r.crashed⟩
      | .crash =>
          ⟨n, out.history, [n], out.played.map (fun k => (n, k)), out.sent, recs,
           true⟩
    else ⟨iteration, history, [], [], [], [], false⟩

/-- Outbound `conversation_loop` body phase
(`outboundim/conversation.py` lines 30-93): `iteration = 0`,
`conversation_history = []`, then the while loop. -/
def outbound_conversation_loop (envs : Nat → TurnEnv) (call_uuid : String)
    (max_iterations : Nat) : LoopResult :=
  loop_go outbound_turn_body envs (outbound_record_path call_uuid)
    max_iterations max_iterations 0 []

/-- Inbound `conversation_loop` while-loop phase
(`inboundim/conversation.py` lines 36-117). -/
def inbound_conversation_loop (envs : Nat → TurnEnv) (call_uuid : String)
    (max_iterations : Nat) : LoopResult :=
  loop_go inbound_turn_body envs (inbound_record_path call_uuid)
    max_iterations max_iterations 0 []

/-!  ## Whole-call recording and hangup commands (outbound `main`)  -/

/-- Whole-call-level commands issued over the ESL connection. -/
inductive Command where
  | startCallRecord (path : String)  -- `uuid_record <uuid> start <path>`
  | stopCallRecord (path : String)   -- `uuid_record <uuid> stop <path>`
  | uuidKill (uuid : String)         -- `uuid_kill <uuid>`
deriving DecidableEq, Repr

/-- Whole-call recording path of the outbound variant
(`outboundim/main.py` line 65). -/
def outbound_call_recording_path (call_uuid : String) : String :=
  "/tmp/freeswitch_recordings/outbound_call_recording_" ++ call_uuid ++ ".wav"

/-- Whole-call commands issued by the outbound `conversation_loop`
after its while loop (`outboundim/conversation.py` lines 95-105): stop
the whole-call recording unconditionally, then `uuid_kill` only if
`check_call_active` still reports the call up. -/
def outbound_loop_commands (call_uuid : String)
    (entire_call_recording_path : String) (activeAtEnd : Bool) :
    List Command :=
  [Command.stopCallRecord entire_call_recording_path] ++
    (if activeAtEnd then [Command.uuidKill call_uuid] else [])

/-- Whole-call commands issued by outbound `main` after
`CHANNEL_ANSWER` (`outboundim/main.py` lines 63-77): start the
whole-call recording, then run `conversation_loop` only when the
greeting playback returned true; on greeting failure the function just
logs and returns. -/
def outbound_main_after_answer (call_uuid : String) (greetingOk : Bool)
    (activeAtEnd : Bool) : List Command :=
  [Command.startCallRecord (outbound_call_recording_path call_uuid)] ++
    (if greetingOk then
      outbound_loop_commands call_uuid (outbound_call_recording_path call_uuid)
        activeAtEnd
     else [])

/-!  ## Concrete environments used to instantiate scenario claims  -/

/-- An iteration environment in which every external interaction
succeeds. -/
def allGoodEnvs : Nat → TurnEnv := fun _ =>
  ⟨true, some "r", true, "t", some "a", some "s"⟩

/-- Three-turn scenario in which the reply service raises on turn 2 and
every other interaction succeeds. -/
def replyFailTurn2Envs : Nat → TurnEnv := fun n =>
  match n with
  | 1 => ⟨true, some "r1", true, "t1", some "a1", some "s1"⟩
  | 2 => ⟨true, some "r2", true, "t2", none, some "s2"⟩
  | _ => ⟨true, some "r3", true, "t3", some "a3", some "s3"⟩

/-!  ## Helper lemmas  -/

/-- If the outbound recording event loop would exhaust its budget on a
poll sequence, then appending a `CHANNEL_HANGUP` (followed by anything)
makes it abort with `hungUp`: the hangup branch fires as soon as the
event is observed. -/
theorem outbound_record_loop_append_hangup (rest : List Poll) :
    ∀ (pre : List Poll) (started : Bool),
      outbound_record_loop started pre = .timedOut →
      outbound_record_loop started (pre ++ some EventName.CHANNEL_HANGUP :: rest)
        = .hungUp := by
  intro pre
  induction pre with
  | nil => intro started _; rfl
  | cons p pre ih =>
    intro started h
    match p with
    | none =>
      simp only [outbound_record_loop, List.cons_append] at h ⊢
      exact ih _ h
    | some .CHANNEL_ANSWER =>
      simp only [outbound_record_loop, List.cons_append] at h ⊢
      exact ih _ h
    | some .CHANNEL_HANGUP =>
      simp [outbound_record_loop] at h
    | some .RECORD_START =>
      simp only [outbound_record_loop, List.cons_append] at h ⊢
      exact ih _ h
    | some .RECORD_STOP =>
      simp only [outbound_record_loop, List.cons_append] at h ⊢
      by_cases hs : started = true
      · rw [if_pos hs] at h
        exact absurd h (by simp)
      · rw [if_neg hs] at h
        rw [if_neg hs]
        exact ih _ h
    | some .PLAYBACK_STOP =>
      simp only [outbound_record_loop, List.cons_append] at h ⊢
      exact ih _ h
    | some .OTHER =>
      simp only [outbound_record_loop, List.cons_append] at h ⊢
      exact ih _ h

/-- If no `PLAYBACK_STOP` is delivered before a `CHANNEL_HANGUP`, the
outbound playback wait returns `false`. -/
theorem wait_for_playback_completion_hangup (rest : List Poll) :
    ∀ pre : List Poll, (∀ x ∈ pre, x ≠ some EventName.PLAYBACK_STOP) →
      wait_for_playback_completion (pre ++ some EventName.CHANNEL_HANGUP :: rest)
        = false := by
  intro pre
  induction pre with
  | nil => intro _; rfl
  | cons p pre ih =>
    intro h
    have hpre : ∀ x ∈ pre, x ≠ some EventName.PLAYBACK_STOP := by
      intro x hx; exact h x (List.mem_cons_of_mem _ hx)
    have hp : p ≠ some EventName.PLAYBACK_STOP := h p (List.mem_cons_self _ _)
    match p with
    | none =>
      simp only [wait_for_playback_completion, List.cons_append]
      exact ih hpre
    | some .CHANNEL_ANSWER =>
      simp only [wait_for_playback_completion, List.cons_append]
      exact ih hpre
    | some .CHANNEL_HANGUP => rfl
    | some .RECORD_START =>
      simp only [wait_for_playback_completion, List.cons_append]
      exact ih hpre
    | some .RECORD_STOP =>
      simp only [wait_for_playback_completion, List.cons_append]
      exact ih hpre
    | some .PLAYBACK_STOP => exact absurd rfl hp
    | some .OTHER =>
      simp only [wait_for_playback_completion, List.cons_append]
      exact ih hpre

/-- Bounds on the shared while-loop runner: at most `fuel` body passes
occur, and every entered iteration index respects the loop guard. -/
theorem loop_go_entered_bound (body : TurnEnv → List Msg → TurnOutput)
    (envs : Nat → TurnEnv) (recPath : String) (max_iterations : Nat) :
    ∀ (fuel iteration : Nat) (history : List Msg),
      (loop_go body envs recPath max_iterations fuel iteration history).entered.length
          ≤ fuel ∧
      ∀ n ∈ (loop_go body envs recPath max_iterations fuel iteration history).entered,
        n ≤ max_iterations := by
  intro fuel
  induction fuel with
  | zero =>
    intro iteration history
    simp [loop_go]
  | succ fuel ih =>
    intro iteration history
    simp only [loop_go]
    split
    · rename_i hlt
      split
      · constructor
        · simp
        · intro n hn
          simp only [List.mem_singleton] at hn
          omega
      · rename_i r heq
        constructor
        · simpa using Nat.succ_le_succ (ih _ _).1
        · intro n hn
          rcases List.mem_cons.mp hn with h1 | h2
          · omega
          · exact (ih _ _).2 n h2
      · constructor
        · simp
        · intro n hn
          simp only [List.mem_singleton] at hn
          omega
    · constructor
      · simp
      · intro n hn
        simp at hn

/-- Every per-turn recording path produced by the while-loop runner is
the fixed `recPath` it was given. -/
theorem loop_go_recPaths (body : TurnEnv → List Msg → TurnOutput)
    (envs : Nat → TurnEnv) (recPath : String) (max_iterations : Nat) :
    ∀ (fuel iteration : Nat) (history : List Msg) (n : Nat) (p : String),
      (n, p) ∈ (loop_go body envs recPath max_iterations fuel iteration history).recPaths →
      p = recPath := by
  intro fuel
  induction fuel with
  | zero =>
    intro iteration history n p hm
    simp [loop_go] at hm
  | succ fuel ih =>
    intro iteration history n p hm
    simp only [loop_go] at hm
    split at hm
    · split at hm
      · rename_i heq
        simp only at hm
        split at hm
        · simp at hm
          exact hm.2
        · simp at hm
      · rename_i r heq
        simp only at hm
        rcases List.mem_append.mp hm with h1 | h2
        · split at h1
          · simp at h1
            exact h1.2
          · simp at h1
        · exact ih _ _ n p h2
      · rename_i heq
        simp only at hm
        split at hm
        · simp at hm
          exact hm.2
        · simp at hm
    · simp at hm

/-- A string sandwiched between fixed prefix and suffix determines the
middle part: used for injectivity of the uuid-derived file paths. -/
theorem sandwich_inj (p s u v : String)
    (h : p ++ u ++ s = p ++ v ++ s) : u = v := by
  have hd : p.data ++ u.data ++ s.data = p.data ++ v.data ++ s.data := by
    have hdd := congrArg String.data h
    simpa [String.data_append] using hdd
  have h2 : p.data ++ (u.data ++ s.data) = p.data ++ (v.data ++ s.data) := by
    simpa [List.append_assoc] using hd
  have h1 : u.data ++ s.data = v.data ++ s.data := List.append_cancel_left h2
  exact String.ext (List.append_cancel_right h1)

/-!  ## Claims  -/

/-- Claim C1, counterexample.  The claim says every session-ending
condition — greeting failure included — leads to the whole-call
recording stop command and one forced-hangup attempt.  But when the
outbound greeting playback fails (`outboundim/main.py` lines 73-77),
`main` merely logs and returns: the whole-call recording it just
started is never stopped and no `uuid_kill` is issued, even with the
call still active. -/
theorem claim_C1_counterexample :
    Command.stopCallRecord (outbound_call_recording_path "u")
        ∉ outbound_main_after_answer "u" false true ∧
    Command.uuidKill "u" ∉ outbound_main_after_answer "u" false true := by
  constructor <;> simp [outbound_main_after_answer, outbound_call_recording_path]

/-- Claim C1, amended.  Once the outbound greeting succeeds and
`conversation_loop` runs, every condition that ends the loop (CallGate
failure, silence, caller hangup, turn limit) reaches the loop epilogue,
which issues the whole-call recording stop exactly once and issues a
forced hangup exactly when `check_call_active` still reports the call
up; a greeting failure, by contrast, ends the session without either
command. -/
theorem claim_C1_amended (call_uuid : String) (activeAtEnd : Bool) :
    (outbound_main_after_answer call_uuid true activeAtEnd).count
        (Command.stopCallRecord (outbound_call_recording_path call_uuid)) = 1 ∧
    (Command.uuidKill call_uuid ∈ outbound_main_after_answer call_uuid true activeAtEnd
      ↔ activeAtEnd = true) := by
  cases activeAtEnd <;>
    simp [outbound_main_after_answer, outbound_loop_commands, List.count_cons]

/-- Claim C2, counterexample.  The claim says a success artifact path is
only returned when the file exceeds the 1000-byte floor, but the
silence-stop path (`RECORD_STOP` after `RECORD_START`) returns the path
with no validation at all: here the artifact is 0 bytes and
`record_user_response` still reports success. -/
theorem claim_C2_counterexample :
    outbound_record_user_response "u"
        [some EventName.RECORD_START, some EventName.RECORD_STOP] true 0
      = some (outbound_record_path "u") ∧ ¬ (0 > 1000) :=
  ⟨rfl, by decide⟩

/-- Claim C2, amended.  Only the manual-stop path validates the
artifact: when the event wait exhausts its budget without a
silence-triggered stop, an artifact at or below the 1000-byte floor
yields NoRecording (`None`), in both variants; the silence-stop path
returns the path unvalidated. -/
theorem claim_C2_amended (call_uuid : String) (polls : List Poll)
    (fileExists : Bool) (fileSize : Nat) (hfloor : fileSize ≤ 1000) :
    (outbound_record_loop false polls = .timedOut →
      outbound_record_user_response call_uuid polls fileExists fileSize = none) ∧
    (inbound_record_loop false polls = .timedOut →
      inbound_record_user_response call_uuid polls fileExists fileSize = none) := by
  constructor
  · intro h
    simp only [outbound_record_user_response, h]
    cases fileExists
    · simp
    · simp
      omega
  · intro h
    simp only [inbound_record_user_response, h]
    cases fileExists
    · simp
    · simp
      omega

/-- Claim C2 amended, witness: empty poll sequence (budget exhausted),
file present but only 400 bytes — both variants report NoRecording. -/
theorem claim_C2_amended_witness :
    outbound_record_user_response "u" [] true 400 = none ∧
    inbound_record_user_response "u" [] true 400 = none :=
  ⟨(claim_C2_amended "u" [] true 400 (by decide)).1 rfl,
   (claim_C2_amended "u" [] true 400 (by decide)).2 rfl⟩

/-- Claim C3, counterexample.  The outbound event-wait budget is
`max_wait = 7` seconds while the start-recording command allows 20000 ms
of recording: the budget is not strictly greater than the maximum
duration. -/
theorem claim_C3_counterexample :
    ¬ (outbound_record_max_wait_s * 1000 > outbound_record_start_max_ms) := by
  decide

/-- Claim C3, amended.  The overall wait budget does not exceed the
maximum recording duration in either variant: strictly smaller in the
outbound variant (7 s vs 20 s) and exactly equal in the inbound variant
(15 s vs 15 s), so the wait cannot cover start-ack plus a full-length
recording plus stop-ack. -/
theorem claim_C3_amended :
    outbound_record_max_wait_s * 1000 < outbound_record_start_max_ms ∧
    inbound_record_max_wait_s * 1000 = inbound_record_start_max_ms := by
  decide

/-- Claim C4, counterexample.  The claim says both variants abort with
NoRecording when `CHANNEL_HANGUP` is observed during the wait, but the
inbound monitoring loop has no hangup branch: here a hangup is
delivered, the loop ignores it, times out, and the function still
returns a success path for the 2000-byte artifact. -/
theorem claim_C4_counterexample :
    inbound_record_user_response "u" [some EventName.CHANNEL_HANGUP] true 2000
      = some (inbound_record_path "u") := rfl

/-- Claim C4, amended.  Only the outbound variant aborts on hangup: if
a `CHANNEL_HANGUP` arrives at any point the wait would otherwise still
be polling, the outbound `record_user_response` returns NoRecording;
the inbound monitoring loop treats `CHANNEL_HANGUP` exactly like an
uninteresting event and keeps polling. -/
theorem claim_C4_amended (call_uuid : String) (pre rest : List Poll)
    (fileExists : Bool) (fileSize : Nat)
    (h : outbound_record_loop false pre = .timedOut) :
    outbound_record_user_response call_uuid
        (pre ++ some EventName.CHANNEL_HANGUP :: rest) fileExists fileSize
      = none ∧
    ∀ (started : Bool) (rest2 : List Poll),
      inbound_record_loop started (some EventName.CHANNEL_HANGUP :: rest2)
        = inbound_record_loop started rest2 := by
  constructor
  · simp only [outbound_record_user_response,
      outbound_record_loop_append_hangup rest pre false h]
  · intro started rest2
    rfl

/-- Claim C4 amended, witness: one empty poll, then a hangup — the
outbound variant reports NoRecording even for a large artifact. -/
theorem claim_C4_amended_witness :
    outbound_record_user_response "u" [none, some EventName.CHANNEL_HANGUP]
        true 2000 = none :=
  (claim_C4_amended "u" [none] [] true 2000 rfl).1

/-- Claim C5 (confirmed).  For every max-iterations bound and every
sequence of turn outcomes, both variants' conversation loops execute
the body at most `max_iterations` times, and every entered iteration
index is at most `max_iterations`. -/
theorem claim_C5_loop_iteration_bound (envs : Nat → TurnEnv)
    (call_uuid : String) (max_iterations : Nat) :
    ((outbound_conversation_loop envs call_uuid max_iterations).entered.length
        ≤ max_iterations ∧
      ∀ n ∈ (outbound_conversation_loop envs call_uuid max_iterations).entered,
        n ≤ max_iterations) ∧
    ((inbound_conversation_loop envs call_uuid max_iterations).entered.length
        ≤ max_iterations ∧
      ∀ n ∈ (inbound_conversation_loop envs call_uuid max_iterations).entered,
        n ≤ max_iterations) := by
  refine ⟨⟨?_, ?_⟩, ⟨?_, ?_⟩⟩
  · exact (loop_go_entered_bound outbound_turn_body envs
      (outbound_record_path call_uuid) max_iterations max_iterations 0 []).1
  · exact (loop_go_entered_bound outbound_turn_body envs
      (outbound_record_path call_uuid) max_iterations max_iterations 0 []).2
  · exact (loop_go_entered_bound inbound_turn_body envs
      (inbound_record_path call_uuid) max_iterations max_iterations 0 []).1
  · exact (loop_go_entered_bound inbound_turn_body envs
      (inbound_record_path call_uuid) max_iterations max_iterations 0 []).2

/-- Claim C5, witness: with every interaction succeeding and
`max_iterations = 2`, the loop enters exactly iterations 1 and 2; the
theorem bounds the count and the index of iteration 2. -/
theorem claim_C5_witness :
    (outbound_conversation_loop allGoodEnvs "u" 2).entered.length ≤ 2 ∧
    (2 : Nat) ≤ 2 :=
  ⟨(claim_C5_loop_iteration_bound allGoodEnvs "u" 2).1.1,
   (claim_C5_loop_iteration_bound allGoodEnvs "u" 2).1.2 2 (by decide)⟩

/-- Claim C6, counterexample.  Two distinct turns of one outbound
session record the caller to the same file: the recording path is
derived from the call UUID alone, with no turn index, so iterations 1
and 2 both use `client_response_u.wav`. -/
theorem claim_C6_counterexample :
    (1, outbound_record_path "u")
        ∈ (outbound_conversation_loop allGoodEnvs "u" 3).recPaths ∧
    (2, outbound_record_path "u")
        ∈ (outbound_conversation_loop allGoodEnvs "u" 3).recPaths ∧
    (1 : Nat) ≠ 2 := by
  refine ⟨?_, ?_, by decide⟩ <;> decide

/-- Claim C6, amended.  Each per-turn recording path is derived from
the call's unique identifier, so recordings of distinct calls never
share a path; within one session, however, every turn's caller
recording uses the one fixed uuid-derived path, so distinct turns write
to the same file. -/
theorem claim_C6_amended :
    (∀ u v : String, u ≠ v → outbound_record_path u ≠ outbound_record_path v) ∧
    (∀ u v : String, u ≠ v → inbound_record_path u ≠ inbound_record_path v) ∧
    (∀ (envs : Nat → TurnEnv) (call_uuid : String) (max_iterations n : Nat)
        (p : String),
      (n, p) ∈ (outbound_conversation_loop envs call_uuid max_iterations).recPaths →
      p = outbound_record_path call_uuid) ∧
    (∀ (envs : Nat → TurnEnv) (call_uuid : String) (max_iterations n : Nat)
        (p : String),
      (n, p) ∈ (inbound_conversation_loop envs call_uuid max_iterations).recPaths →
      p = inbound_record_path call_uuid) := by
  refine ⟨?_, ?_, ?_, ?_⟩
  · intro u v huv h
    exact huv (sandwich_inj "/tmp/freeswitch_recordings/client_response_" ".wav" u v h)
  · intro u v huv h
    exact huv (sandwich_inj "/tmp/freeswitch/recordings/client_response_" ".wav" u v h)
  · intro envs call_uuid max_iterations n p hm
    exact loop_go_recPaths outbound_turn_body envs (outbound_record_path call_uuid)
      max_iterations max_iterations 0 [] n p hm
  · intro envs call_uuid max_iterations n p hm
    exact loop_go_recPaths inbound_turn_body envs (inbound_record_path call_uuid)
      max_iterations max_iterations 0 [] n p hm

/-- Claim C6 amended, witness: distinct uuids give distinct paths, and
turn 1's recorded path in a concrete run is the uuid-derived path. -/
theorem claim_C6_amended_witness :
    outbound_record_path "a" ≠ outbound_record_path "b" ∧
    outbound_record_path "u" = outbound_record_path "u" :=
  ⟨claim_C6_amended.1 "a" "b" (by decide),
   claim_C6_amended.2.2.1 allGoodEnvs "u" 3 1 (outbound_record_path "u") (by decide)⟩

/-- Claim C7 (confirmed).  A `CHANNEL_HANGUP` delivered while the play
operation is waiting never yields true: the outbound
`wait_for_playback_completion` returns false whenever a hangup arrives
before any `PLAYBACK_STOP`, and the inbound `play_audio_file` never
returns `True` on any input (its successful path returns `None`, which
is falsy to every caller). -/
theorem claim_C7_play_hangup_never_true :
    (∀ (pre rest : List Poll),
      (∀ x ∈ pre, x ≠ some EventName.PLAYBACK_STOP) →
      wait_for_playback_completion
          (pre ++ some EventName.CHANNEL_HANGUP :: rest) = false) ∧
    (∀ (callActive fileExists : Bool),
      inbound_play_audio_file callActive fileExists ≠ some true) := by
  constructor
  · intro pre rest h
    exact wait_for_playback_completion_hangup rest pre h
  · decide

/-- Claim C7, witness: a lone hangup event makes the outbound playback
wait return false. -/
theorem claim_C7_witness :
    wait_for_playback_completion [some EventName.CHANNEL_HANGUP] = false :=
  claim_C7_play_hangup_never_true.1 [] [] (by simp)

/-- Claim C8, counterexample.  The claim says that after a
reply-service error on turn 2 of 3, turn 3 still executes — but in the
inbound variant the `except` handler's own call to
`convert_text_to_audio` raises an uncaught `TypeError` (the malformed
path expression at `inboundim/ai_processor.py` line 122), so the
conversation loop terminates at turn 2 and turn 3 is never entered. -/
theorem claim_C8_counterexample :
    (inbound_conversation_loop replyFailTurn2Envs "u" 3).crashed = true ∧
    3 ∉ (inbound_conversation_loop replyFailTurn2Envs "u" 3).entered := by
  constructor
  · rfl
  · decide

/-- Claim C8, amended.  When the reply service raises on turn 2 of a
3-turn conversation, turn 2 produces no playback and the turn-1
history entries are unchanged in both variants (turn 2 contributes its
user entry and no assistant entry); the outbound variant continues and
turn 3 still executes and plays its reply, but the inbound variant's
error-prompt fallback itself raises an uncaught `TypeError` inside the
`except` handler, so the conversation loop terminates at turn 2 and
turn 3 never executes. -/
theorem claim_C8_amended :
    ((outbound_conversation_loop replyFailTurn2Envs "u" 3).finalIteration = 3 ∧
     (outbound_conversation_loop replyFailTurn2Envs "u" 3).crashed = false ∧
     (outbound_conversation_loop replyFailTurn2Envs "u" 3).played
        = [(1, PlayKind.reply), (3, PlayKind.reply)] ∧
     (outbound_conversation_loop replyFailTurn2Envs "u" 3).history
        = [Msg.mk "user" "t1", Msg.mk "assistant" "a1", Msg.mk "user" "t2",
           Msg.mk "user" "t3", Msg.mk "assistant" "a3"]) ∧
    ((inbound_conversation_loop replyFailTurn2Envs "u" 3).finalIteration = 2 ∧
     (inbound_conversation_loop replyFailTurn2Envs "u" 3).crashed = true ∧
     (inbound_conversation_loop replyFailTurn2Envs "u" 3).entered = [1, 2] ∧
     (inbound_conversation_loop replyFailTurn2Envs "u" 3).played = [] ∧
     (inbound_conversation_loop replyFailTurn2Envs "u" 3).history
        = [Msg.mk "user" "t1", Msg.mk "assistant" "a1", Msg.mk "user" "t2"]) :=
  ⟨⟨rfl, rfl, rfl, rfl⟩, ⟨rfl, rfl, rfl, rfl, rfl⟩⟩

/-- Claim C9 (confirmed).  The conversation loops append the caller's
transcript to the history and then hand both the history and the same
transcript to `process_call_context`, which appends it again: every
message list actually sent to the reply service ends with the latest
transcript twice. -/
theorem claim_C9_duplicate_transcript (history : List Msg) (t : String) :
    process_call_context_messages t (history ++ [Msg.mk "user" t])
        = history ++ [Msg.mk "user" t, Msg.mk "user" t] ∧
    (∀ (env : TurnEnv) (h : List Msg) (ms : List Msg),
      ms ∈ (outbound_turn_body env h).sent →
      ms = h ++ [Msg.mk "user" env.transcription,
                 Msg.mk "user" env.transcription]) ∧
    (∀ (env : TurnEnv) (h : List Msg) (ms : List Msg),
      ms ∈ (inbound_turn_body env h).sent →
      ms = h ++ [Msg.mk "user" env.transcription,
                 Msg.mk "user" env.transcription]) := by
  refine ⟨by simp [process_call_context_messages], ?_, ?_⟩
  · intro env h ms hm
    unfold outbound_turn_body at hm
    repeat' split at hm
    all_goals simp_all [process_call_context_messages]
  · intro env h ms hm
    unfold inbound_turn_body at hm
    repeat' split at hm
    all_goals by_cases ht : env.transcription = "" <;>
      simp_all [process_call_context_messages, inbound_convert_text_to_audio]

/-- Claim C9, witness: on the first turn with transcript `"t"`, the
list sent to the model is exactly the transcript twice. -/
theorem claim_C9_witness :
    process_call_context_messages "t" ([] ++ [Msg.mk "user" "t"])
      = [Msg.mk "user" "t", Msg.mk "user" "t"] :=
  (claim_C9_duplicate_transcript [] "t").1

/-- Claim C10 (confirmed).  The inbound `play_audio_file` never returns
`True`: its early exits return `False` and its successful playback path
falls off the end of the function, returning `None` — so every caller
branching on the result observes a falsy outcome even after a completed
playback. -/
theorem claim_C10_inbound_play_never_true :
    (∀ (callActive fileExists : Bool),
      inbound_play_audio_file callActive fileExists ≠ some true) ∧
    inbound_play_audio_file true true = none := by
  decide

end FreeswitchSetup
